import Mathlib

/-
Shallow embedding of the ico-clash Solana program (src/program-rust).

Modelling conventions:
- Pubkeys are natural numbers (abstract identities).
- u64 values are Nat; where Rust performs a bitwise operation on a u64 the
  embedding reduces modulo 2^64 explicitly.
- The floating-point (f64) pricing arithmetic of exchange_clash_token is
  modelled by exact rational arithmetic (Rat), preserving the exact operation
  sequence of the source; the saturating float-to-u64 cast is modelled by
  truncation toward zero clamped to the u64 range.
- External collaborators (token sub-ledger layouts, rent sysvar, derived
  address computation, cross-program invocations) are modelled at their
  interface boundary: account data carries its parsed views, derived
  addresses and rent amounts come from a Host record, and cross-program
  invocations become an explicit effect list returned on success.  A failing
  handler returns an error and produces no effects, matching the host
  runtime's atomic rollback of failed instructions.
- Compiled-in configuration constants live in the module config.rs, which is
  referenced by processor.rs but not present in the sources; they are
  modelled from the spec as the fields of a Config record.
-/

/-- Host-level error type standing for solana ProgramError; only the
variants this program can surface are included.  Custom carries the numeric
discriminant of an ICOError. -/
inductive ProgramError where
  | MissingRequiredSignature
  | InvalidArgument
  | UninitializedAccount
  | IllegalOwner
  | IncorrectProgramId
  | InsufficientFunds
  | InvalidInstructionData
  | InvalidAccountData
  | BorshIoError
  | NotEnoughAccountKeys
  | Custom (code : Nat)
  deriving DecidableEq, Repr

/-- Error enumeration of src/program-rust/src/error.rs, in source order, so
that the derived discriminants (ICOError.code) match the Rust `e as u32`. -/
inductive ICOError where
  | InvalidInstructionDataEmpty
  | InvalidProgramInstruction
  | InvalidClashTokenId
  | InvalidAddressProgramPDA
  | AlreadyCreatedPDAAccount
  | InitializerNotMintAuthority
  | InvalidInitializerATAAddress
  | CannotTransferSameAccount
  | CannotTransferSameAssociatedAccount
  | InvalidSourceAssociatedAccountOwner
  | InvalidProgramAssociatedPDAOwner
  | InvalidClashTokenDestinationWallet
  | InvalidOfferTooFew
  | InvalidOfferTooMuch
  | InvalidClashTokenAmount
  | InsuficientClashToken
  | InvalidClashTrustedAuthority
  | InvalidTerminateUninitializedICO
  | InitializerAccountMismatch
  | InitializerAssociatedAccountMismatch
  deriving DecidableEq, Repr

/-- Numeric discriminant of each ICOError variant, matching the positional
discriminants assigned by the Rust enum in error.rs. -/
def ICOError.code : ICOError → Nat
  | .InvalidInstructionDataEmpty => 0
  | .InvalidProgramInstruction => 1
  | .InvalidClashTokenId => 2
  | .InvalidAddressProgramPDA => 3
  | .AlreadyCreatedPDAAccount => 4
  | .InitializerNotMintAuthority => 5
  | .InvalidInitializerATAAddress => 6
  | .CannotTransferSameAccount => 7
  | .CannotTransferSameAssociatedAccount => 8
  | .InvalidSourceAssociatedAccountOwner => 9
  | .InvalidProgramAssociatedPDAOwner => 10
  | .InvalidClashTokenDestinationWallet => 11
  | .InvalidOfferTooFew => 12
  | .InvalidOfferTooMuch => 13
  | .InvalidClashTokenAmount => 14
  | .InsuficientClashToken => 15
  | .InvalidClashTrustedAuthority => 16
  | .InvalidTerminateUninitializedICO => 17
  | .InitializerAccountMismatch => 18
  | .InitializerAssociatedAccountMismatch => 19

/-- Embedding of error.rs ico_err: logs and returns Err(Custom(e as u32)).
The log line is outside the model; the returned error is kept exactly. -/
def ico_err (e : ICOError) : Except ProgramError Unit :=
  .error (.Custom e.code)

/-- Parsed view of an spl_token Account (state.rs of the token sub-ledger);
only the fields the program reads are modelled. -/
structure TokenAccount where
  owner : Nat
  mint : Nat
  amount : Nat
  deriving DecidableEq, Repr

/-- Parsed view of an spl_token Mint; only the fields the program reads. -/
structure Mint where
  mint_authority : Option Nat
  decimals : Nat
  deriving DecidableEq, Repr

/-- Sale record persisted in the program derived account
(state.rs ICOProgramData). -/
structure ICOProgramData where
  initializer : Nat
  initializer_ata : Nat
  deriving DecidableEq, Repr

/-- Exchange instruction payload (state.rs ClashTokenExchangeData). -/
structure ClashTokenExchangeData where
  sol_as_lamports_amount : Nat
  deriving DecidableEq, Repr

/-- Payment instruction payload (state.rs ClashTokenPaymentData). -/
structure ClashTokenPaymentData where
  clash_token_amount : Nat
  deriving DecidableEq, Repr

/-- Account handle as the program observes it, standing for solana
AccountInfo.  The raw data bytes are modelled by their parsed views: a field
is some v when the bytes parse as that layout, none when parsing fails. -/
structure AccountInfo where
  key : Nat
  is_signer : Bool
  is_writable : Bool
  lamports : Nat
  tokenData : Option TokenAccount := none
  mintData : Option Mint := none
  icoData : Option ICOProgramData := none
  deriving DecidableEq, Repr

/-- Bitwise NOT of a u64 value, as the Rust expression !x computes it on a
u64: every bit of the 64-bit representation is flipped. -/
def u64_not (x : Nat) : Nat := (2 ^ 64 - 1) - x % 2 ^ 64

/-- Embedding of util.rs validate_account.  The third check translates the
Rust condition `initialized && !acc_info.lamports() == 0` literally: since
lamports() is a u64, the Rust prefix ! is bitwise NOT (applied before ==),
so the condition holds exactly when the balance is 2^64 - 1. -/
def validate_account (acc_info : AccountInfo) (signer writable initialized : Bool) :
    Except ProgramError Unit := do
  if signer && !acc_info.is_signer then
    throw ProgramError.MissingRequiredSignature
  if writable && !acc_info.is_writable then
    throw ProgramError.InvalidArgument
  if initialized && (u64_not acc_info.lamports == 0) then
    throw ProgramError.UninitializedAccount
  pure ()

/-- Embedding of util.rs validate_token_account: owner check first
(IllegalOwner), then mint check (InvalidArgument). -/
def validate_token_account (acc_info : TokenAccount) (owner mint : Nat) :
    Except ProgramError Unit := do
  if acc_info.owner ≠ owner then
    throw ProgramError.IllegalOwner
  if acc_info.mint ≠ mint then
    throw ProgramError.InvalidArgument
  pure ()

/-- Embedding of solana next_account_info: pops the next handle off the
caller-supplied list, failing with NotEnoughAccountKeys when exhausted. -/
def nextAccountInfo (accounts : List AccountInfo) :
    Except ProgramError (AccountInfo × List AccountInfo) :=
  match accounts with
  | [] => .error .NotEnoughAccountKeys
  | a :: rest => .ok (a, rest)

/-- Embedding of spl_token Account::unpack_unchecked on an account's data:
succeeds with the parsed view when the bytes have the token-account layout,
fails with InvalidAccountData otherwise. -/
def unpackTokenAccount (a : AccountInfo) : Except ProgramError TokenAccount :=
  match a.tokenData with
  | some t => .ok t
  | none => .error .InvalidAccountData

/-- Embedding of spl_token Mint::unpack_unchecked on an account's data. -/
def unpackMint (a : AccountInfo) : Except ProgramError Mint :=
  match a.mintData with
  | some m => .ok m
  | none => .error .InvalidAccountData

/-- Embedding of borsh ICOProgramData::try_from_slice on an account's data;
a borsh failure surfaces as ProgramError::BorshIoError. -/
def decodeIcoData (a : AccountInfo) : Except ProgramError ICOProgramData :=
  match a.icoData with
  | some d => .ok d
  | none => .error .BorshIoError

/-- Instruction enumeration of instruction.rs, InvalidInstruction included
(internal sentinel used by unpack). -/
inductive ProgramInstruction where
  | InitializeICO
  | ExchangeClashToken (data : ClashTokenExchangeData)
  | ExecuteClashPayment (data : ClashTokenPaymentData)
  | TerminateICO
  | InvalidInstruction
  deriving DecidableEq, Repr

/-- Borsh u64 deserialization from a slice, as try_from_slice performs it:
exactly eight bytes, little-endian, with the whole input consumed. -/
def readU64Le (l : List Nat) : Option Nat :=
  match l with
  | [b0, b1, b2, b3, b4, b5, b6, b7] =>
      some (b0 + 2 ^ 8 * b1 + 2 ^ 16 * b2 + 2 ^ 24 * b3 +
        2 ^ 32 * b4 + 2 ^ 40 * b5 + 2 ^ 48 * b6 + 2 ^ 56 * b7)
  | _ => none

/-- Borsh try_from_slice for the single-u64 payload structs; a length or
layout mismatch surfaces as ProgramError::BorshIoError via the From impl. -/
def tryFromSliceU64 (l : List Nat) : Except ProgramError Nat :=
  match readU64Le l with
  | some v => .ok v
  | none => .error .BorshIoError

/-- Borsh serialization of a u64: eight little-endian bytes. -/
def u64ToLeBytes (x : Nat) : List Nat :=
  [x % 2 ^ 8, x / 2 ^ 8 % 2 ^ 8, x / 2 ^ 16 % 2 ^ 8, x / 2 ^ 24 % 2 ^ 8,
    x / 2 ^ 32 % 2 ^ 8, x / 2 ^ 40 % 2 ^ 8, x / 2 ^ 48 % 2 ^ 8, x / 2 ^ 56 % 2 ^ 8]

/-- Embedding of instruction.rs ProgramInstruction::unpack. -/
def ProgramInstruction.unpack (input_data : List Nat) :
    Except ProgramError ProgramInstruction := do
  if input_data.isEmpty then
    ico_err ICOError.InvalidInstructionDataEmpty
  let instruction_type : Nat := input_data.headD 0
  let instruction_data : List Nat := input_data.tail
  let instruction : ProgramInstruction ←
    match instruction_type with
    | 0 => pure ProgramInstruction.InitializeICO
    | 1 => do
        let v ← tryFromSliceU64 instruction_data
        pure (ProgramInstruction.ExchangeClashToken ⟨v⟩)
    | 2 => do
        let v ← tryFromSliceU64 instruction_data
        pure (ProgramInstruction.ExecuteClashPayment ⟨v⟩)
    | 3 => pure ProgramInstruction.TerminateICO
    | _ => pure ProgramInstruction.InvalidInstruction
  if instruction = ProgramInstruction.InvalidInstruction then
    ico_err ICOError.InvalidProgramInstruction
  pure instruction

example : ProgramInstruction.unpack [] =
    .error (.Custom ICOError.InvalidInstructionDataEmpty.code) := rfl

example : ProgramInstruction.unpack [7, 1] =
    .error (.Custom ICOError.InvalidProgramInstruction.code) := rfl

example : ProgramInstruction.unpack [1, 5, 0, 0, 0, 0, 0, 0, 0] =
    .ok (ProgramInstruction.ExchangeClashToken ⟨5⟩) := rfl

example : ProgramInstruction.unpack [0, 9, 9] =
    .ok ProgramInstruction.InitializeICO := rfl

example : validate_account ⟨1, false, false, 0, none, none, none⟩ false false true =
    .ok () := rfl

/-- Modelled from the spec: compiled-in configuration constants of the
missing config module (config.rs is referenced by processor.rs but absent
from the sources).  Token identity, treasury native address and trusted
payment authority are identities; the rate, price and min/max USD offer
bounds are numeric constants, modelled as exact rationals. -/
structure Config where
  CLASH_TOKEN_ID : Nat
  CLASH_SOL_WALLET : Nat
  CLASH_PAYMENT_AUTHORITY : Nat
  SOL_USD : Rat
  CLASH_USD : Rat
  MIN_USD_PRICE : Rat
  MAX_USD_PRICE : Rat

/-- Modelled from the spec: host collaborators invoked by the processor.
programPda and bumpSeed stand for the result of
Pubkey::find_program_address([SEED1, SEED2], program_id), and
rentMinBalance for Rent::get().minimum_balance(record size); both are
deterministic host services outside the program sources. -/
structure Host where
  programPda : Nat
  bumpSeed : Nat
  rentMinBalance : Nat

/-- Cross-program invocations and direct lamport moves a handler performs on
success, in order.  A handler that fails returns an error instead, and the
host applies none of the effects (atomic rollback). -/
inductive Effect where
  | createAccount (funder dest lamports : Nat)
  | createAta (funder owner mint : Nat)
  | transferLamports (src dst amount : Nat)
  | transferTokens (src dst amount decimals : Nat)
  | closeAccount (acct dest : Nat)
  | writeRecord (acct : Nat) (d : ICOProgramData)
  | debitLamports (acct amount : Nat)
  | creditLamports (acct amount : Nat)
  deriving DecidableEq, Repr

/-- Native token base unit count: solana LAMPORTS_PER_SOL. -/
def LAMPORTS_PER_SOL : Nat := 1000000000

/-- The Rust cast `x as u64` applied to a nonnegative f64: truncation toward
zero, saturating at the u64 range; modelled on exact rationals. -/
def ratToU64 (q : Rat) : Nat := min (Int.toNat ⌊q⌋) (2 ^ 64 - 1)

/-- Pricing step 1 of exchange_clash_token:
sol_amount = lamports as f64 / LAMPORTS_PER_SOL as f64. -/
def sol_amount_of (lamports : Nat) : Rat :=
  (lamports : Rat) / (LAMPORTS_PER_SOL : Rat)

/-- Pricing step 2: usd_amount = sol_amount * SOL_USD. -/
def usd_amount_of (cfg : Config) (lamports : Nat) : Rat :=
  sol_amount_of lamports * cfg.SOL_USD

/-- Pricing step 3: clash_amount = usd_amount / CLASH_USD. -/
def clash_amount_of (cfg : Config) (lamports : Nat) : Rat :=
  usd_amount_of cfg lamports / cfg.CLASH_USD

/-- The scale factor 10u32.pow(decimals) as f64; the u32 power wraps
modulo 2^32 as in the source type. -/
def pow10u32 (d : Nat) : Rat := ((10 ^ d % 2 ^ 32 : Nat) : Rat)

/-- Integer token quantity of exchange_clash_token: the computed clash
amount scaled by the mint's decimal exponent when positive, cast to u64. -/
def clash_amount_final_of (cfg : Config) (lamports decimals : Nat) : Nat :=
  if decimals > 0 then ratToU64 (clash_amount_of cfg lamports * pow10u32 decimals)
  else ratToU64 (clash_amount_of cfg lamports)

/-- Embedding of Processor::initialize_ico (processor.rs lines 68-208). -/
def initialize_ico (cfg : Config) (host : Host) (_program_id : Nat)
    (accounts : List AccountInfo) : Except ProgramError (List Effect) := do
  let (initializer_account, it) ← nextAccountInfo accounts
  let (initializer_token_account, it) ← nextAccountInfo it
  let (clash_token_account, it) ← nextAccountInfo it
  let (program_pda_account, it) ← nextAccountInfo it
  let (program_token_account, it) ← nextAccountInfo it
  let (_system_program_account, it) ← nextAccountInfo it
  let (_token_program_account, it) ← nextAccountInfo it
  let (_associated_token_account_program, it) ← nextAccountInfo it
  let (_sysvar_rent_program_account, _) ← nextAccountInfo it
  validate_account initializer_account true false true
  validate_account initializer_token_account false false true
  validate_account clash_token_account false true true
  validate_account program_pda_account false true false
  validate_account program_token_account false true false
  let initializer_associated_token_account ← unpackTokenAccount initializer_token_account
  validate_token_account initializer_associated_token_account
    initializer_account.key cfg.CLASH_TOKEN_ID
  let program_pda := host.programPda
  if program_pda_account.key ≠ program_pda then
    ico_err ICOError.InvalidAddressProgramPDA
  if program_pda_account.lamports ≠ 0 then
    let _ico_data ← decodeIcoData program_pda_account
    ico_err ICOError.AlreadyCreatedPDAAccount
  let clash_mint_data ← unpackMint clash_token_account
  if clash_mint_data.mint_authority ≠ some initializer_account.key then
    ico_err ICOError.InitializerNotMintAuthority
  let lamports_amount := host.rentMinBalance
  let createEffects : List Effect :=
    [Effect.createAccount initializer_account.key program_pda_account.key lamports_amount]
  let ataEffects : List Effect :=
    if program_token_account.lamports == 0 then
      [Effect.createAta initializer_account.key program_pda_account.key clash_token_account.key]
    else []
  pure (createEffects ++ ataEffects ++
    [Effect.writeRecord program_pda_account.key
      ⟨initializer_account.key, initializer_token_account.key⟩])

/-- Embedding of Processor::exchange_clash_token (processor.rs lines
210-418).  The f64 pricing block of lines 289-311 is the exact-rational
model above, preserving the source's operation sequence. -/
def exchange_clash_token (cfg : Config) (host : Host) (program_id : Nat)
    (accounts : List AccountInfo) (data : ClashTokenExchangeData) :
    Except ProgramError (List Effect) := do
  let (from_sol_account, it) ← nextAccountInfo accounts
  let (to_token_account, it) ← nextAccountInfo it
  let (to_sol_account, it) ← nextAccountInfo it
  let (from_token_account, it) ← nextAccountInfo it
  let (clash_token_account, it) ← nextAccountInfo it
  let (program_account, it) ← nextAccountInfo it
  let (program_pda_account, it) ← nextAccountInfo it
  let (_system_program_account, it) ← nextAccountInfo it
  let (_token_program_account, it) ← nextAccountInfo it
  let (_associated_token_account_program, it) ← nextAccountInfo it
  let (_sysvar_rent_program_account, _) ← nextAccountInfo it
  validate_account from_sol_account true true true
  validate_account to_token_account false true false
  validate_account to_sol_account false true true
  validate_account from_token_account false true true
  validate_account clash_token_account false false true
  if program_account.key ≠ program_id then
    throw ProgramError.IncorrectProgramId
  if clash_token_account.key ≠ cfg.CLASH_TOKEN_ID then
    ico_err ICOError.InvalidClashTokenId
  if from_sol_account.key = to_sol_account.key then
    ico_err ICOError.CannotTransferSameAccount
  if from_token_account.key = to_token_account.key then
    ico_err ICOError.CannotTransferSameAssociatedAccount
  if to_sol_account.key ≠ cfg.CLASH_SOL_WALLET then
    ico_err ICOError.InvalidClashTokenDestinationWallet
  if to_token_account.lamports ≠ 0 then
    let to_associated_token_account ← unpackTokenAccount to_token_account
    if to_associated_token_account.owner ≠ from_sol_account.key then
      ico_err ICOError.InvalidSourceAssociatedAccountOwner
  let program_pda := host.programPda
  if program_pda_account.key ≠ program_pda then
    ico_err ICOError.InvalidAddressProgramPDA
  let from_associated_token_account ← unpackTokenAccount from_token_account
  if from_associated_token_account.owner ≠ program_pda then
    ico_err ICOError.InvalidProgramAssociatedPDAOwner
  let lamports_amount := data.sol_as_lamports_amount
  let usd_amount := usd_amount_of cfg lamports_amount
  if usd_amount < cfg.MIN_USD_PRICE then
    ico_err ICOError.InvalidOfferTooFew
  if usd_amount > cfg.MAX_USD_PRICE then
    ico_err ICOError.InvalidOfferTooMuch
  let clash_mint_data ← unpackMint clash_token_account
  let clash_decimals := clash_mint_data.decimals
  let clash_amount_final := clash_amount_final_of cfg lamports_amount clash_decimals
  if clash_amount_final = 0 then
    ico_err ICOError.InvalidClashTokenAmount
  if from_sol_account.lamports ≤ lamports_amount then
    throw ProgramError.InsufficientFunds
  if from_associated_token_account.amount < clash_amount_final then
    ico_err ICOError.InsuficientClashToken
  let ataEffects : List Effect :=
    if to_token_account.lamports == 0 then
      [Effect.createAta from_sol_account.key from_sol_account.key clash_token_account.key]
    else []
  pure (ataEffects ++
    [Effect.transferLamports from_sol_account.key to_sol_account.key lamports_amount,
     Effect.transferTokens from_token_account.key to_token_account.key
       clash_amount_final clash_decimals])

/-- Embedding of Processor::execute_clash_payment (processor.rs lines
420-582). -/
def execute_clash_payment (cfg : Config) (host : Host) (program_id : Nat)
    (accounts : List AccountInfo) (data : ClashTokenPaymentData) :
    Except ProgramError (List Effect) := do
  let (payer_account, it) ← nextAccountInfo accounts
  let (payer_token_account, it) ← nextAccountInfo it
  let (clash_token_account, it) ← nextAccountInfo it
  let (trusted_signer_authority, it) ← nextAccountInfo it
  let (program_token_account, it) ← nextAccountInfo it
  let (program_account, it) ← nextAccountInfo it
  let (program_pda_account, it) ← nextAccountInfo it
  let (_system_program_account, it) ← nextAccountInfo it
  let (_token_program_account, it) ← nextAccountInfo it
  let (_associated_token_account_program, it) ← nextAccountInfo it
  let (_sysvar_rent_program_account, _) ← nextAccountInfo it
  validate_account payer_account false false true
  validate_account payer_token_account false true false
  validate_account clash_token_account false false true
  validate_account trusted_signer_authority true false true
  validate_account program_token_account false true true
  if program_account.key ≠ program_id then
    throw ProgramError.IncorrectProgramId
  if clash_token_account.key ≠ cfg.CLASH_TOKEN_ID then
    ico_err ICOError.InvalidClashTokenId
  if payer_token_account.key = program_token_account.key then
    ico_err ICOError.CannotTransferSameAssociatedAccount
  if trusted_signer_authority.key ≠ cfg.CLASH_PAYMENT_AUTHORITY then
    ico_err ICOError.InvalidClashTrustedAuthority
  if payer_token_account.lamports ≠ 0 then
    let payer_associated_token_account ← unpackTokenAccount payer_token_account
    if payer_associated_token_account.owner ≠ payer_account.key then
      ico_err ICOError.InvalidClashTokenDestinationWallet
  let program_pda := host.programPda
  if program_pda_account.key ≠ program_pda then
    ico_err ICOError.InvalidAddressProgramPDA
  let program_associated_token_account ← unpackTokenAccount program_token_account
  if program_associated_token_account.owner ≠ program_pda then
    ico_err ICOError.InvalidProgramAssociatedPDAOwner
  let clash_amount_final := data.clash_token_amount
  if clash_amount_final = 0 then
    ico_err ICOError.InvalidClashTokenAmount
  if program_associated_token_account.amount < clash_amount_final then
    ico_err ICOError.InsuficientClashToken
  let ataEffects : List Effect :=
    if payer_token_account.lamports == 0 then
      [Effect.createAta payer_account.key payer_account.key clash_token_account.key]
    else []
  let clash_mint_data ← unpackMint clash_token_account
  pure (ataEffects ++
    [Effect.transferTokens program_token_account.key payer_token_account.key
      clash_amount_final clash_mint_data.decimals])

/-- Embedding of Processor::terminate_ico (processor.rs lines 584-734). -/
def terminate_ico (cfg : Config) (host : Host) (_program_id : Nat)
    (accounts : List AccountInfo) : Except ProgramError (List Effect) := do
  let (initializer_account, it) ← nextAccountInfo accounts
  let (initializer_token_account, it) ← nextAccountInfo it
  let (clash_token_account, it) ← nextAccountInfo it
  let (program_pda_account, it) ← nextAccountInfo it
  let (program_token_account, it) ← nextAccountInfo it
  let (_token_program_account, _) ← nextAccountInfo it
  validate_account initializer_account true false true
  validate_account initializer_token_account false false true
  validate_account clash_token_account false true true
  validate_account program_pda_account false true false
  validate_account program_token_account false true false
  if clash_token_account.key ≠ cfg.CLASH_TOKEN_ID then
    ico_err ICOError.InvalidClashTokenId
  let program_pda := host.programPda
  if program_pda_account.key ≠ program_pda then
    ico_err ICOError.InvalidAddressProgramPDA
  if program_pda_account.lamports = 0 then
    ico_err ICOError.InvalidTerminateUninitializedICO
  let ico_data ← decodeIcoData program_pda_account
  if ico_data.initializer ≠ initializer_account.key then
    ico_err ICOError.InitializerAccountMismatch
  if ico_data.initializer_ata ≠ initializer_token_account.key then
    ico_err ICOError.InitializerAssociatedAccountMismatch
  let clash_mint_data ← unpackMint clash_token_account
  let closeEffects : List Effect ←
    if program_token_account.lamports ≠ 0 then do
      let program_associated_token_account ← unpackTokenAccount program_token_account
      validate_token_account program_associated_token_account
        program_pda_account.key cfg.CLASH_TOKEN_ID
      let amount_clash := program_associated_token_account.amount
      let decimals := clash_mint_data.decimals
      let transferEffects : List Effect :=
        if amount_clash > 0 then
          [Effect.transferTokens program_token_account.key
            initializer_token_account.key amount_clash decimals]
        else []
      pure (transferEffects ++
        [Effect.closeAccount program_token_account.key initializer_account.key])
    else pure []
  let lamports_amount := program_pda_account.lamports
  pure (closeEffects ++
    [Effect.debitLamports program_pda_account.key lamports_amount,
     Effect.creditLamports initializer_account.key lamports_amount])

/-- Embedding of Processor::process: decode then dispatch. -/
def process (cfg : Config) (host : Host) (program_id : Nat)
    (accounts : List AccountInfo) (instruction_data : List Nat) :
    Except ProgramError (List Effect) := do
  let instruction ← ProgramInstruction.unpack instruction_data
  match instruction with
  | ProgramInstruction.InitializeICO => initialize_ico cfg host program_id accounts
  | ProgramInstruction.ExchangeClashToken data =>
      exchange_clash_token cfg host program_id accounts data
  | ProgramInstruction.ExecuteClashPayment data =>
      execute_clash_payment cfg host program_id accounts data
  | ProgramInstruction.TerminateICO => terminate_ico cfg host program_id accounts
  | ProgramInstruction.InvalidInstruction => throw ProgramError.InvalidInstructionData

@[simp] theorem exceptBind_ok {e : Type} {a b : Type} (x : a) (f : a → Except e b) :
    (Except.ok x >>= f) = f x := rfl

@[simp] theorem exceptBind_err {e : Type} {a b : Type} (err : e) (f : a → Except e b) :
    ((Except.error err : Except e a) >>= f) = Except.error err := rfl

@[simp] theorem exceptMap_ok {e : Type} {a b : Type} (f : a → b) (x : a) :
    (f <$> (Except.ok x : Except e a)) = Except.ok (f x) := rfl

@[simp] theorem exceptMap_err {e : Type} {a b : Type} (f : a → b) (err : e) :
    (f <$> (Except.error err : Except e a)) = Except.error err := rfl

@[simp] theorem exceptPure_def {e : Type} {a : Type} (x : a) :
    (pure x : Except e a) = Except.ok x := rfl

@[simp] theorem exceptThrow_def {e : Type} {a : Type} (err : e) :
    (throw err : Except e a) = Except.error err := rfl

/-- Helper: the borsh u64 reader rejects every slice whose length is not
exactly eight. -/
theorem readU64Le_eq_none (l : List Nat) (h : l.length ≠ 8) : readU64Le l = none := by
  rcases l with _ | ⟨b0, _ | ⟨b1, _ | ⟨b2, _ | ⟨b3, _ | ⟨b4, _ | ⟨b5, _ | ⟨b6, _ | ⟨b7, _ | ⟨b8, r⟩⟩⟩⟩⟩⟩⟩⟩⟩ <;>
    simp [readU64Le] at h ⊢

/-- Helper: reading back the eight little-endian bytes of a u64 recovers it. -/
theorem readU64Le_u64ToLeBytes (x : Nat) (h : x < 2 ^ 64) :
    readU64Le (u64ToLeBytes x) = some x := by
  simp only [readU64Le, u64ToLeBytes, Option.some.injEq]
  omega

/-- Helper: the buggy funded-check condition of validate_account is false
for every balance other than 2^64 - 1. -/
theorem u64_not_ne_zero (n : Nat) (h : n % 2 ^ 64 ≠ 2 ^ 64 - 1) : u64_not n ≠ 0 := by
  unfold u64_not
  omega

/-- Account skeleton for initialize_ico theorems: fixed identities for the
nine accounts, with the initializer token account's parsed owner and mint,
and the sale-record account's balance and parsed record, as parameters.
Keys: initializer 1, its token account 2, the token-asset descriptor is the
configured token id, the sale record sits at the derived address, custody
21, service handles 30-33. -/
def mkInitAccounts (cfg : Config) (host : Host) (ataOwner ataMint : Nat)
    (pdaLamports : Nat) (pdaData : Option ICOProgramData) : List AccountInfo :=
  [⟨1, true, false, 5, none, none, none⟩,
   ⟨2, false, false, 5, some ⟨ataOwner, ataMint, 0⟩, none, none⟩,
   ⟨cfg.CLASH_TOKEN_ID, false, true, 5, none, some ⟨some 1, 9⟩, none⟩,
   ⟨host.programPda, false, true, pdaLamports, none, none, pdaData⟩,
   ⟨21, false, true, 0, none, none, none⟩,
   ⟨30, false, false, 0, none, none, none⟩,
   ⟨31, false, false, 0, none, none, none⟩,
   ⟨32, false, false, 0, none, none, none⟩,
   ⟨33, false, false, 0, none, none, none⟩]

/-- Account skeleton for exchange_clash_token theorems.  Keys: payer 1, its
destination token account 2 (balance zero, not yet created), treasury is the
configured wallet, custody token account 4 holding custodyAmount and owned
by the derived authority, the token-asset descriptor is the configured token
id with the given decimals, self-reference is the executing program id, the
derived authority account sits at the derived address, services 30-33. -/
def mkExchangeAccounts (cfg : Config) (host : Host) (pid : Nat)
    (payerLamports custodyAmount decimals : Nat) : List AccountInfo :=
  [⟨1, true, true, payerLamports, none, none, none⟩,
   ⟨2, false, true, 0, none, none, none⟩,
   ⟨cfg.CLASH_SOL_WALLET, false, true, 5, none, none, none⟩,
   ⟨4, false, true, 5, some ⟨host.programPda, cfg.CLASH_TOKEN_ID, custodyAmount⟩, none, none⟩,
   ⟨cfg.CLASH_TOKEN_ID, false, false, 5, none, some ⟨some 1, decimals⟩, none⟩,
   ⟨pid, false, false, 0, none, none, none⟩,
   ⟨host.programPda, false, false, 0, none, none, none⟩,
   ⟨30, false, false, 0, none, none, none⟩,
   ⟨31, false, false, 0, none, none, none⟩,
   ⟨32, false, false, 0, none, none, none⟩,
   ⟨33, false, false, 0, none, none, none⟩]

/-- Account skeleton for execute_clash_payment theorems.  Keys: payer 1,
payer token account 2 with the given balance and parsed owner, token-asset
descriptor is the configured token id, trusted signer is the configured
payment authority, custody token account 5 owned by the derived authority,
self-reference is the program id, derived authority account at the derived
address, services 30-33. -/
def mkPaymentAccounts (cfg : Config) (host : Host) (pid : Nat)
    (payerTokLamports payerTokOwner custodyAmount : Nat) : List AccountInfo :=
  [⟨1, false, false, 5, none, none, none⟩,
   ⟨2, false, true, payerTokLamports, some ⟨payerTokOwner, cfg.CLASH_TOKEN_ID, 0⟩, none, none⟩,
   ⟨cfg.CLASH_TOKEN_ID, false, false, 5, none, some ⟨some 1, 9⟩, none⟩,
   ⟨cfg.CLASH_PAYMENT_AUTHORITY, true, false, 5, none, none, none⟩,
   ⟨5, false, true, 5, some ⟨host.programPda, cfg.CLASH_TOKEN_ID, custodyAmount⟩, none, none⟩,
   ⟨pid, false, false, 0, none, none, none⟩,
   ⟨host.programPda, false, false, 0, none, none, none⟩,
   ⟨30, false, false, 0, none, none, none⟩,
   ⟨31, false, false, 0, none, none, none⟩,
   ⟨32, false, false, 0, none, none, none⟩,
   ⟨33, false, false, 0, none, none, none⟩]

/-- Account skeleton for terminate_ico theorems.  Keys: caller 1, its token
account 2, token-asset descriptor is the configured token id, sale record at
the derived address with the given balance and parsed record, custody 21
(balance zero), token sub-ledger service 30. -/
def mkTerminateAccounts (cfg : Config) (host : Host)
    (pdaLamports : Nat) (pdaData : Option ICOProgramData) : List AccountInfo :=
  [⟨1, true, false, 5, none, none, none⟩,
   ⟨2, false, false, 5, none, none, none⟩,
   ⟨cfg.CLASH_TOKEN_ID, false, true, 5, none, some ⟨some 1, 9⟩, none⟩,
   ⟨host.programPda, false, true, pdaLamports, none, none, pdaData⟩,
   ⟨21, false, true, 0, none, none, none⟩,
   ⟨30, false, false, 0, none, none, none⟩]

/-- C1 (code_bug evidence): the spec says validate_account with
require_funded set fails with UninitializedAccount when the balance is
zero.  In the source the condition is `initialized && !acc_info.lamports()
== 0`; the prefix ! binds before == and is bitwise NOT on the u64, so the
check fires only at balance 2^64 - 1.  At the failing input (balance 0,
require_funded true) the code accepts the account, and at balance 2^64 - 1
it rejects a fully funded one; the signer and writable checks and their
order are as specified. -/
theorem validate_account_funded_check_divergence :
    validate_account ⟨1, false, false, 0, none, none, none⟩ false false true =
      Except.ok () ∧
    validate_account ⟨1, false, false, 2 ^ 64 - 1, none, none, none⟩ false false true =
      Except.error ProgramError.UninitializedAccount :=
  ⟨rfl, rfl⟩

/-- C4: decoding the empty byte sequence fails with
InvalidInstructionDataEmpty; a first byte outside 0-3 fails with
InvalidProgramInstruction; for tags 1 and 2 the payload must be exactly one
little-endian u64 (eight bytes), else a borsh decode error surfaces.
Decoding is a total function into Except, so it never partially succeeds. -/
theorem unpack_error_cases :
    ProgramInstruction.unpack [] =
      Except.error (ProgramError.Custom ICOError.InvalidInstructionDataEmpty.code) ∧
    (∀ b rest, b ≠ 0 → b ≠ 1 → b ≠ 2 → b ≠ 3 →
      ProgramInstruction.unpack (b :: rest) =
        Except.error (ProgramError.Custom ICOError.InvalidProgramInstruction.code)) ∧
    (∀ rest, rest.length ≠ 8 →
      ProgramInstruction.unpack (1 :: rest) = Except.error ProgramError.BorshIoError) ∧
    (∀ rest, rest.length ≠ 8 →
      ProgramInstruction.unpack (2 :: rest) = Except.error ProgramError.BorshIoError) := by
  refine ⟨rfl, ?_, ?_, ?_⟩
  · intro b rest h0 h1 h2 h3
    match b with
    | 0 => exact absurd rfl h0
    | 1 => exact absurd rfl h1
    | 2 => exact absurd rfl h2
    | 3 => exact absurd rfl h3
    | n + 4 => simp [ProgramInstruction.unpack, ico_err]
  · intro rest h
    simp [ProgramInstruction.unpack, tryFromSliceU64, readU64Le_eq_none rest h]
  · intro rest h
    simp [ProgramInstruction.unpack, tryFromSliceU64, readU64Le_eq_none rest h]

/-- C4 witness: the error cases evaluated at concrete inputs (tag 7,
and tags 1 and 2 with a three-byte payload). -/
theorem unpack_error_cases_witness :
    ProgramInstruction.unpack [7, 9] =
      Except.error (ProgramError.Custom ICOError.InvalidProgramInstruction.code) ∧
    ProgramInstruction.unpack [1, 1, 2, 3] = Except.error ProgramError.BorshIoError ∧
    ProgramInstruction.unpack [2, 1, 2, 3] = Except.error ProgramError.BorshIoError :=
  ⟨unpack_error_cases.2.1 7 [9] (by decide) (by decide) (by decide) (by decide),
   unpack_error_cases.2.2.1 [1, 2, 3] (by decide),
   unpack_error_cases.2.2.2 [1, 2, 3] (by decide)⟩

/-- C8: serializing an Exchange or ExecutePayment payload (eight
little-endian bytes after the tag) and decoding it yields the original
u64 amount exactly, for every representable value. -/
theorem payload_roundtrip (x : Nat) (h : x < 2 ^ 64) :
    ProgramInstruction.unpack (1 :: u64ToLeBytes x) =
      Except.ok (ProgramInstruction.ExchangeClashToken ⟨x⟩) ∧
    ProgramInstruction.unpack (2 :: u64ToLeBytes x) =
      Except.ok (ProgramInstruction.ExecuteClashPayment ⟨x⟩) := by
  have hr : readU64Le (u64ToLeBytes x) = some x := readU64Le_u64ToLeBytes x h
  constructor <;> simp [ProgramInstruction.unpack, tryFromSliceU64, hr]

/-- C8 witness: the round trip evaluated at the maximum u64 value. -/
theorem payload_roundtrip_witness :
    ProgramInstruction.unpack (1 :: u64ToLeBytes (2 ^ 64 - 1)) =
      Except.ok (ProgramInstruction.ExchangeClashToken ⟨2 ^ 64 - 1⟩) ∧
    ProgramInstruction.unpack (2 :: u64ToLeBytes (2 ^ 64 - 1)) =
      Except.ok (ProgramInstruction.ExecuteClashPayment ⟨2 ^ 64 - 1⟩) :=
  payload_roundtrip (2 ^ 64 - 1) (by norm_num)

/-- C10: a first byte of 0 or 3 decodes to the Initialize or Terminate
variant whatever trailing bytes follow; the remainder of the input is never
inspected for these tags. -/
theorem unpack_trailing_bytes_ignored (rest : List Nat) :
    ProgramInstruction.unpack (0 :: rest) = Except.ok ProgramInstruction.InitializeICO ∧
    ProgramInstruction.unpack (3 :: rest) = Except.ok ProgramInstruction.TerminateICO :=
  ⟨rfl, rfl⟩

/-- C3 counterexample: at a concrete Initialize call whose initializer
token account records owner 99 instead of the initializer (key 1), the
handler fails with the generic IllegalOwner error of validate_token_account,
not with the custom InvalidInitializerATAAddress code the claim names; the
two error values are distinct.  The InvalidInitializerATAAddress variant is
declared in error.rs but never produced by the processor. -/
theorem initialize_ata_owner_mismatch_error_value :
    initialize_ico ⟨10, 3, 4, 100, 1000000, 50, 500⟩ ⟨20, 255, 1000⟩ 7
        (mkInitAccounts ⟨10, 3, 4, 100, 1000000, 50, 500⟩ ⟨20, 255, 1000⟩ 99 10 0 none) =
      Except.error ProgramError.IllegalOwner ∧
    ProgramError.IllegalOwner ≠
      ProgramError.Custom ICOError.InvalidInitializerATAAddress.code :=
  ⟨rfl, by decide⟩

/-- C3 (amended): Initialize fails with the generic IllegalOwner error
whenever the initializer token account's recorded owner is not the
initializer, and with the generic InvalidArgument error when the owner
matches but the recorded asset is not the configured token identity
(validate_token_account, owner check first). -/
theorem initialize_ata_validation_errors (cfg : Config) (host : Host)
    (pid ataOwner ataMint : Nat) :
    (ataOwner ≠ 1 →
      initialize_ico cfg host pid (mkInitAccounts cfg host ataOwner ataMint 0 none) =
        Except.error ProgramError.IllegalOwner) ∧
    (ataOwner = 1 → ataMint ≠ cfg.CLASH_TOKEN_ID →
      initialize_ico cfg host pid (mkInitAccounts cfg host ataOwner ataMint 0 none) =
        Except.error ProgramError.InvalidArgument) := by
  constructor
  · intro h
    simp [initialize_ico, mkInitAccounts, nextAccountInfo, validate_account,
      validate_token_account, unpackTokenAccount, u64_not, h]
  · intro h1 h2
    simp [initialize_ico, mkInitAccounts, nextAccountInfo, validate_account,
      validate_token_account, unpackTokenAccount, u64_not, h1, h2]

/-- C3 witness: both amended branches evaluated at concrete inputs. -/
theorem initialize_ata_validation_errors_witness :
    initialize_ico ⟨10, 3, 4, 100, 1000000, 50, 500⟩ ⟨20, 255, 1000⟩ 7
        (mkInitAccounts ⟨10, 3, 4, 100, 1000000, 50, 500⟩ ⟨20, 255, 1000⟩ 99 10 0 none) =
      Except.error ProgramError.IllegalOwner ∧
    initialize_ico ⟨10, 3, 4, 100, 1000000, 50, 500⟩ ⟨20, 255, 1000⟩ 7
        (mkInitAccounts ⟨10, 3, 4, 100, 1000000, 50, 500⟩ ⟨20, 255, 1000⟩ 1 11 0 none) =
      Except.error ProgramError.InvalidArgument :=
  ⟨(initialize_ata_validation_errors ⟨10, 3, 4, 100, 1000000, 50, 500⟩
      ⟨20, 255, 1000⟩ 7 99 10).1 (by decide),
   (initialize_ata_validation_errors ⟨10, 3, 4, 100, 1000000, 50, 500⟩
      ⟨20, 255, 1000⟩ 7 1 11).2 rfl (by decide)⟩

/-- C5: when every earlier check of Initialize passes (initializer token
account owned by the initializer with the configured asset, sale record at
the derived address) and the sale-record account already carries a non-zero
balance holding a decodable record, the handler fails with
AlreadyCreatedPDAAccount.  An error result carries no effect list, and the
host applies no effect of a failed instruction, so no balance changes; a
second Initialize against the record created by a successful first one meets
exactly this guard (the record exists with non-zero rent balance). -/
theorem initialize_already_created_guard (cfg : Config) (host : Host)
    (pid pdaLamports : Nat) (d : ICOProgramData) (h : pdaLamports ≠ 0) :
    initialize_ico cfg host pid
        (mkInitAccounts cfg host 1 cfg.CLASH_TOKEN_ID pdaLamports (some d)) =
      Except.error (ProgramError.Custom ICOError.AlreadyCreatedPDAAccount.code) := by
  simp [initialize_ico, mkInitAccounts, nextAccountInfo, validate_account,
    validate_token_account, unpackTokenAccount, decodeIcoData, u64_not, ico_err, h]

/-- C5 witness: the guard evaluated at a concrete funded sale record. -/
theorem initialize_already_created_guard_witness :
    initialize_ico ⟨10, 3, 4, 100, 1000000, 50, 500⟩ ⟨20, 255, 1000⟩ 7
        (mkInitAccounts ⟨10, 3, 4, 100, 1000000, 50, 500⟩ ⟨20, 255, 1000⟩ 1 10 1000 (some ⟨1, 2⟩)) =
      Except.error (ProgramError.Custom ICOError.AlreadyCreatedPDAAccount.code) :=
  initialize_already_created_guard ⟨10, 3, 4, 100, 1000000, 50, 500⟩
    ⟨20, 255, 1000⟩ 7 1000 ⟨1, 2⟩ (by decide)

/-- C6: with the structural checks of Terminate passing, a zero-balance
sale record fails with InvalidTerminateUninitializedICO; a funded record
whose stored initializer differs from the caller (key 1) fails with
InitializerAccountMismatch; a funded record whose stored initializer
matches but whose stored token account differs from the supplied handle
(key 2) fails with InitializerAssociatedAccountMismatch.  Every failure
returns an error with no effect list, so the host changes no balance. -/
theorem terminate_guards (cfg : Config) (host : Host) (pid pdaLamports : Nat)
    (d : ICOProgramData) :
    (terminate_ico cfg host pid (mkTerminateAccounts cfg host 0 (some d)) =
      Except.error (ProgramError.Custom ICOError.InvalidTerminateUninitializedICO.code)) ∧
    (pdaLamports ≠ 0 → d.initializer ≠ 1 →
      terminate_ico cfg host pid (mkTerminateAccounts cfg host pdaLamports (some d)) =
        Except.error (ProgramError.Custom ICOError.InitializerAccountMismatch.code)) ∧
    (pdaLamports ≠ 0 → d.initializer = 1 → d.initializer_ata ≠ 2 →
      terminate_ico cfg host pid (mkTerminateAccounts cfg host pdaLamports (some d)) =
        Except.error (ProgramError.Custom ICOError.InitializerAssociatedAccountMismatch.code)) := by
  refine ⟨?_, ?_, ?_⟩
  · simp [terminate_ico, mkTerminateAccounts, nextAccountInfo, validate_account,
      validate_token_account, unpackTokenAccount, decodeIcoData, u64_not, ico_err]
  · intro h1 h2
    simp [terminate_ico, mkTerminateAccounts, nextAccountInfo, validate_account,
      validate_token_account, unpackTokenAccount, decodeIcoData, u64_not, ico_err, h1, h2]
  · intro h1 h2 h3
    simp [terminate_ico, mkTerminateAccounts, nextAccountInfo, validate_account,
      validate_token_account, unpackTokenAccount, decodeIcoData, u64_not, ico_err, h1, h2, h3]

/-- C6 witness: the three Terminate guards evaluated at concrete records. -/
theorem terminate_guards_witness :
    (terminate_ico ⟨10, 3, 4, 100, 1000000, 50, 500⟩ ⟨20, 255, 1000⟩ 7
        (mkTerminateAccounts ⟨10, 3, 4, 100, 1000000, 50, 500⟩ ⟨20, 255, 1000⟩ 0 (some ⟨1, 2⟩)) =
      Except.error (ProgramError.Custom ICOError.InvalidTerminateUninitializedICO.code)) ∧
    (terminate_ico ⟨10, 3, 4, 100, 1000000, 50, 500⟩ ⟨20, 255, 1000⟩ 7
        (mkTerminateAccounts ⟨10, 3, 4, 100, 1000000, 50, 500⟩ ⟨20, 255, 1000⟩ 1000 (some ⟨9, 2⟩)) =
      Except.error (ProgramError.Custom ICOError.InitializerAccountMismatch.code)) ∧
    (terminate_ico ⟨10, 3, 4, 100, 1000000, 50, 500⟩ ⟨20, 255, 1000⟩ 7
        (mkTerminateAccounts ⟨10, 3, 4, 100, 1000000, 50, 500⟩ ⟨20, 255, 1000⟩ 1000 (some ⟨1, 9⟩)) =
      Except.error (ProgramError.Custom ICOError.InitializerAssociatedAccountMismatch.code)) :=
  ⟨(terminate_guards ⟨10, 3, 4, 100, 1000000, 50, 500⟩ ⟨20, 255, 1000⟩ 7 0 ⟨1, 2⟩).1,
   (terminate_guards ⟨10, 3, 4, 100, 1000000, 50, 500⟩ ⟨20, 255, 1000⟩ 7 1000 ⟨9, 2⟩).2.1
     (by decide) (by decide),
   (terminate_guards ⟨10, 3, 4, 100, 1000000, 50, 500⟩ ⟨20, 255, 1000⟩ 7 1000 ⟨1, 9⟩).2.2
     (by decide) rfl (by decide)⟩

/-- C2: with every earlier Exchange check passing, the handler computes
sol_amount = lamports / LAMPORTS_PER_SOL, then usd_amount = sol_amount *
SOL_USD, then token_amount = usd_amount / CLASH_USD (the defs
sol_amount_of, usd_amount_of, clash_amount_of, in that sequence); it fails
with InvalidOfferTooFew when usd_amount is below the configured floor, with
InvalidOfferTooMuch when usd_amount is above the configured ceiling, and —
when both USD bounds pass — with InvalidClashTokenAmount when the token
amount scaled by the asset's decimal exponent truncates to the integer
zero (clash_amount_final_of).  The f64 arithmetic of the source is
modelled by exact rationals over the same operation sequence. -/
theorem exchange_pricing_bounds (cfg : Config) (host : Host)
    (pid lamports decimals : Nat) (hw : cfg.CLASH_SOL_WALLET ≠ 1) :
    (usd_amount_of cfg lamports < cfg.MIN_USD_PRICE →
      exchange_clash_token cfg host pid
          (mkExchangeAccounts cfg host pid 5 0 decimals) ⟨lamports⟩ =
        Except.error (ProgramError.Custom ICOError.InvalidOfferTooFew.code)) ∧
    (¬ usd_amount_of cfg lamports < cfg.MIN_USD_PRICE →
      usd_amount_of cfg lamports > cfg.MAX_USD_PRICE →
      exchange_clash_token cfg host pid
          (mkExchangeAccounts cfg host pid 5 0 decimals) ⟨lamports⟩ =
        Except.error (ProgramError.Custom ICOError.InvalidOfferTooMuch.code)) ∧
    (¬ usd_amount_of cfg lamports < cfg.MIN_USD_PRICE →
      ¬ usd_amount_of cfg lamports > cfg.MAX_USD_PRICE →
      clash_amount_final_of cfg lamports decimals = 0 →
      exchange_clash_token cfg host pid
          (mkExchangeAccounts cfg host pid 5 0 decimals) ⟨lamports⟩ =
        Except.error (ProgramError.Custom ICOError.InvalidClashTokenAmount.code)) := by
  have hw2 : (1 : Nat) ≠ cfg.CLASH_SOL_WALLET := Ne.symm hw
  refine ⟨?_, ?_, ?_⟩
  · intro h
    simp [exchange_clash_token, mkExchangeAccounts, nextAccountInfo, validate_account,
      unpackTokenAccount, unpackMint, u64_not, ico_err, hw, hw2, h]
  · intro h1 h2
    simp [exchange_clash_token, mkExchangeAccounts, nextAccountInfo, validate_account,
      unpackTokenAccount, unpackMint, u64_not, ico_err, hw, hw2, h1, h2]
  · intro h1 h2 h3
    simp [exchange_clash_token, mkExchangeAccounts, nextAccountInfo, validate_account,
      unpackTokenAccount, unpackMint, u64_not, ico_err, hw, hw2, h1, h2, h3]

/-- C2 witness: the three pricing rejections evaluated at concrete offers
(rate 100 USD per SOL, token price 1000000 USD, bounds 50 and 500 USD):
0.1 SOL is worth 10 USD (below the floor), 10 SOL is worth 1000 USD (above
the ceiling), and 0.5 SOL is worth exactly 50 USD but buys a token amount
that truncates to zero at zero decimals. -/
theorem exchange_pricing_bounds_witness :
    (exchange_clash_token ⟨10, 3, 4, 100, 1000000, 50, 500⟩ ⟨20, 255, 1000⟩ 7
        (mkExchangeAccounts ⟨10, 3, 4, 100, 1000000, 50, 500⟩ ⟨20, 255, 1000⟩ 7 5 0 0)
        ⟨100000000⟩ =
      Except.error (ProgramError.Custom ICOError.InvalidOfferTooFew.code)) ∧
    (exchange_clash_token ⟨10, 3, 4, 100, 1000000, 50, 500⟩ ⟨20, 255, 1000⟩ 7
        (mkExchangeAccounts ⟨10, 3, 4, 100, 1000000, 50, 500⟩ ⟨20, 255, 1000⟩ 7 5 0 0)
        ⟨10000000000⟩ =
      Except.error (ProgramError.Custom ICOError.InvalidOfferTooMuch.code)) ∧
    (exchange_clash_token ⟨10, 3, 4, 100, 1000000, 50, 500⟩ ⟨20, 255, 1000⟩ 7
        (mkExchangeAccounts ⟨10, 3, 4, 100, 1000000, 50, 500⟩ ⟨20, 255, 1000⟩ 7 5 0 0)
        ⟨500000000⟩ =
      Except.error (ProgramError.Custom ICOError.InvalidClashTokenAmount.code)) :=
  ⟨(exchange_pricing_bounds ⟨10, 3, 4, 100, 1000000, 50, 500⟩ ⟨20, 255, 1000⟩ 7
      100000000 0 (by decide)).1
      (by norm_num [usd_amount_of, sol_amount_of, LAMPORTS_PER_SOL]),
   (exchange_pricing_bounds ⟨10, 3, 4, 100, 1000000, 50, 500⟩ ⟨20, 255, 1000⟩ 7
      10000000000 0 (by decide)).2.1
      (by norm_num [usd_amount_of, sol_amount_of, LAMPORTS_PER_SOL])
      (by norm_num [usd_amount_of, sol_amount_of, LAMPORTS_PER_SOL]),
   (exchange_pricing_bounds ⟨10, 3, 4, 100, 1000000, 50, 500⟩ ⟨20, 255, 1000⟩ 7
      500000000 0 (by decide)).2.2
      (by norm_num [usd_amount_of, sol_amount_of, LAMPORTS_PER_SOL])
      (by norm_num [usd_amount_of, sol_amount_of, LAMPORTS_PER_SOL])
      (by norm_num [clash_amount_final_of, clash_amount_of, usd_amount_of,
        sol_amount_of, ratToU64, pow10u32, LAMPORTS_PER_SOL, Nat.min_def])⟩

/-- C7: with the structural and pricing checks of Exchange passing, the
handler fails with the host InsufficientFunds error unless the payer's
native balance is strictly greater than the offered lamports, and fails
with InsuficientClashToken when the custody token balance is below the
computed integer token quantity.  Both guards sit before the transfer
effects in the handler, so a failing run produces no transfer. -/
theorem exchange_balance_guards (cfg : Config) (host : Host)
    (pid payerLamports custodyAmount lamports decimals : Nat)
    (hw : cfg.CLASH_SOL_WALLET ≠ 1)
    (hp : payerLamports % 2 ^ 64 ≠ 2 ^ 64 - 1)
    (hmin : ¬ usd_amount_of cfg lamports < cfg.MIN_USD_PRICE)
    (hmax : ¬ usd_amount_of cfg lamports > cfg.MAX_USD_PRICE)
    (hnz : clash_amount_final_of cfg lamports decimals ≠ 0) :
    (payerLamports ≤ lamports →
      exchange_clash_token cfg host pid
          (mkExchangeAccounts cfg host pid payerLamports custodyAmount decimals) ⟨lamports⟩ =
        Except.error ProgramError.InsufficientFunds) ∧
    (lamports < payerLamports →
      custodyAmount < clash_amount_final_of cfg lamports decimals →
      exchange_clash_token cfg host pid
          (mkExchangeAccounts cfg host pid payerLamports custodyAmount decimals) ⟨lamports⟩ =
        Except.error (ProgramError.Custom ICOError.InsuficientClashToken.code)) := by
  have hw2 : (1 : Nat) ≠ cfg.CLASH_SOL_WALLET := Ne.symm hw
  have hp2 : u64_not payerLamports ≠ 0 := u64_not_ne_zero payerLamports hp
  have h5 : u64_not 5 ≠ 0 := by decide
  constructor
  · intro h
    simp [exchange_clash_token, mkExchangeAccounts, nextAccountInfo, validate_account,
      unpackTokenAccount, unpackMint, ico_err, hw, hw2, hp2, h5, hmin, hmax, hnz, h]
  · intro h1 h2
    have h3 : ¬ (payerLamports ≤ lamports) := by omega
    simp [exchange_clash_token, mkExchangeAccounts, nextAccountInfo, validate_account,
      unpackTokenAccount, unpackMint, ico_err, hw, hw2, hp2, h5, hmin, hmax, hnz, h2, h3]

/-- C7 witness: with rate 100 USD per SOL, token price 1 USD and bounds 50
to 500 USD, an offer of 1 SOL (worth 100 USD, buying 100 tokens at zero
decimals) is rejected with InsufficientFunds when the payer holds exactly
the offered amount, and with InsuficientClashToken when the payer holds 2
SOL but the custody account holds only 50 tokens. -/
theorem exchange_balance_guards_witness :
    (exchange_clash_token ⟨10, 3, 4, 100, 1, 50, 500⟩ ⟨20, 255, 1000⟩ 7
        (mkExchangeAccounts ⟨10, 3, 4, 100, 1, 50, 500⟩ ⟨20, 255, 1000⟩ 7
          1000000000 50 0) ⟨1000000000⟩ =
      Except.error ProgramError.InsufficientFunds) ∧
    (exchange_clash_token ⟨10, 3, 4, 100, 1, 50, 500⟩ ⟨20, 255, 1000⟩ 7
        (mkExchangeAccounts ⟨10, 3, 4, 100, 1, 50, 500⟩ ⟨20, 255, 1000⟩ 7
          2000000000 50 0) ⟨1000000000⟩ =
      Except.error (ProgramError.Custom ICOError.InsuficientClashToken.code)) :=
  ⟨(exchange_balance_guards ⟨10, 3, 4, 100, 1, 50, 500⟩ ⟨20, 255, 1000⟩ 7
      1000000000 50 1000000000 0 (by decide) (by decide)
      (by norm_num [usd_amount_of, sol_amount_of, LAMPORTS_PER_SOL])
      (by norm_num [usd_amount_of, sol_amount_of, LAMPORTS_PER_SOL])
      (by norm_num [clash_amount_final_of, clash_amount_of, usd_amount_of,
        sol_amount_of, ratToU64, pow10u32, LAMPORTS_PER_SOL, Nat.min_def])).1
      (by decide),
   (exchange_balance_guards ⟨10, 3, 4, 100, 1, 50, 500⟩ ⟨20, 255, 1000⟩ 7
      2000000000 50 1000000000 0 (by decide) (by decide)
      (by norm_num [usd_amount_of, sol_amount_of, LAMPORTS_PER_SOL])
      (by norm_num [usd_amount_of, sol_amount_of, LAMPORTS_PER_SOL])
      (by norm_num [clash_amount_final_of, clash_amount_of, usd_amount_of,
        sol_amount_of, ratToU64, pow10u32, LAMPORTS_PER_SOL, Nat.min_def])).2
      (by decide)
      (by norm_num [clash_amount_final_of, clash_amount_of, usd_amount_of,
        sol_amount_of, ratToU64, pow10u32, LAMPORTS_PER_SOL, Nat.min_def])⟩

/-- C9: in ExecutePayment, when the payer's token account already exists
(non-zero balance) and records an owner other than the payer, the handler
fails with the InvalidClashTokenDestinationWallet custom code — a different
code than the InvalidSourceAssociatedAccountOwner the analogous Exchange
check produces (the two discriminants are distinct). -/
theorem payment_owner_mismatch_error (cfg : Config) (host : Host)
    (pid payerTokLamports payerTokOwner custodyAmount : Nat)
    (h1 : payerTokLamports ≠ 0) (h2 : payerTokOwner ≠ 1) :
    execute_clash_payment cfg host pid
        (mkPaymentAccounts cfg host pid payerTokLamports payerTokOwner custodyAmount) ⟨7⟩ =
      Except.error (ProgramError.Custom ICOError.InvalidClashTokenDestinationWallet.code) ∧
    ICOError.InvalidClashTokenDestinationWallet.code ≠
      ICOError.InvalidSourceAssociatedAccountOwner.code := by
  refine ⟨?_, by decide⟩
  simp [execute_clash_payment, mkPaymentAccounts, nextAccountInfo, validate_account,
    unpackTokenAccount, unpackMint, u64_not, ico_err, h1, h2]

/-- C9 witness: the check evaluated at a concrete existing payer token
account recording owner 9 while the payer is key 1. -/
theorem payment_owner_mismatch_error_witness :
    execute_clash_payment ⟨10, 3, 4, 100, 1000000, 50, 500⟩ ⟨20, 255, 1000⟩ 7
        (mkPaymentAccounts ⟨10, 3, 4, 100, 1000000, 50, 500⟩ ⟨20, 255, 1000⟩ 7 5 9 50) ⟨7⟩ =
      Except.error (ProgramError.Custom ICOError.InvalidClashTokenDestinationWallet.code) ∧
    ICOError.InvalidClashTokenDestinationWallet.code ≠
      ICOError.InvalidSourceAssociatedAccountOwner.code :=
  payment_owner_mismatch_error ⟨10, 3, 4, 100, 1000000, 50, 500⟩ ⟨20, 255, 1000⟩ 7
    5 9 50 (by decide) (by decide)
